import Mathlib

/-!
Verification of the swellstrike condition-aggregation engine.

The JavaScript sources (`server.js`, `ski-data-fetcher.js`) and the SQL
schema (`database_schema.sql`) are embedded shallowly: JS numbers that can
be `NaN`/`undefined` are modelled as `Option ℚ` (`none` = `NaN`), integer
score accumulation as `ℤ`, and the PL/pgSQL scoring functions as plain
functions over `ℚ` (SQL `DECIMAL` is exact).  Non-finite parse results
(`Infinity`) are outside the model; the NOAA fixed-width feed never
produces them.
-/

namespace SwellStrike

/-- Model of a JavaScript number operand: `some v` is the finite value `v`,
`none` is `NaN` (or `undefined`).  Every JS comparison returns `false` when
an operand is `NaN`; arithmetic propagates `NaN`. -/
abbrev JNum := Option ℚ

/-- JS `x >= c` for a possibly-NaN left operand. -/
def jge (x : JNum) (c : ℚ) : Bool :=
  match x with
  | none => false
  | some v => decide (c ≤ v)

/-- JS `x <= c` for a possibly-NaN left operand. -/
def jle (x : JNum) (c : ℚ) : Bool :=
  match x with
  | none => false
  | some v => decide (v ≤ c)

/-- JS `x < c` for a possibly-NaN left operand. -/
def jlt (x : JNum) (c : ℚ) : Bool :=
  match x with
  | none => false
  | some v => decide (v < c)

/-- JS `x > c` for a possibly-NaN left operand. -/
def jgt (x : JNum) (c : ℚ) : Bool :=
  match x with
  | none => false
  | some v => decide (c < v)

/-- JS `x * c` (NaN propagates). -/
def jmul (x : JNum) (c : ℚ) : JNum := x.map (fun v => v * c)

/-- JS `x * a + b` (NaN propagates); used for the °C → °F conversion. -/
def jmuladd (x : JNum) (a b : ℚ) : JNum := x.map (fun v => v * a + b)

/-- JS `Math.max(0, Math.min(100, score))` on the integer score. -/
def jsClamp (s : ℤ) : ℤ := max 0 (min 100 s)

/-- The fields of a parsed buoy reading that `calculateSurfScore`
(`server.js` lines 65–85) actually reads. -/
structure SurfData where
  waveHeight : JNum
  dominantPeriod : JNum
  avgPeriod : JNum
  windSpeed : JNum

/-- Wave-height block of `calculateSurfScore` (`server.js` lines 68–71):
the `if`/`else if` chain over `heightFeet`, written as the contribution it
adds to `score`. -/
def surfHeightPts (heightFeet : JNum) : ℤ :=
  if jge heightFeet 4 && jle heightFeet 10 then 40
  else if jge heightFeet 2 && jlt heightFeet 4 then 25
  else if jgt heightFeet 10 && jle heightFeet 15 then 30
  else 0

/-- Dominant-period block of `calculateSurfScore` (`server.js` lines 73–75). -/
def surfPeriodPts (p : JNum) : ℤ :=
  if jge p 12 then 30
  else if jge p 10 then 20
  else if jge p 8 then 10
  else 0

/-- Wind block of `calculateSurfScore` (`server.js` lines 77–80); the final
`else` branch subtracts 10. -/
def surfWindPts (windMph : JNum) : ℤ :=
  if jlt windMph 10 then 20
  else if jlt windMph 15 then 10
  else -10

/-- Average-period block of `calculateSurfScore` (`server.js` line 82). -/
def surfAvgPts (a : JNum) : ℤ :=
  if jge a 8 then 10 else 0

/-- Function `calculateSurfScore` from `server.js` lines 65–85.  The sequential
`score +=` updates are the sum of the per-metric block contributions,
clamped by `Math.max(0, Math.min(100, score))`. -/
def calculateSurfScore (data : SurfData) : ℤ :=
  let heightFeet := jmul data.waveHeight 3.28084
  let windMph := jmul data.windSpeed 2.237
  jsClamp (surfHeightPts heightFeet + surfPeriodPts data.dominantPeriod
    + surfWindPts windMph + surfAvgPts data.avgPeriod)

/-- The object literal passed to `calculateSkiScore` by `fetchAllSkiData`
(`ski-data-fetcher.js` lines 178–183). -/
structure SkiData where
  snow24h : JNum
  snow48h : JNum
  temp : JNum
  windSpeed : JNum

/-- Function `calculateSkiScore` from `ski-data-fetcher.js` lines 123–152. -/
def calculateSkiScore (data : SkiData) : ℤ :=
  let tempF := jmuladd data.temp (9 / 5) 32
  let windMph := jmul data.windSpeed 2.237
  let snowPts : ℤ :=
    if jge data.snow24h 12 then 40
    else if jge data.snow24h 8 then 30
    else if jge data.snow24h 4 then 20
    else if jge data.snow48h 18 then 25
    else if jge data.snow48h 12 then 15
    else 0
  let tempPts : ℤ :=
    if jlt tempF 32 && jgt tempF 15 then 20
    else if jlt tempF 15 then 15
    else if jlt tempF 35 then 10
    else 0
  let windPts : ℤ :=
    if jlt windMph 15 then 20
    else if jlt windMph 25 then 10
    else if jgt windMph 40 then -10
    else 0
  let bonusFresh : ℤ := if jge data.snow24h 6 && jlt tempF 28 then 10 else 0
  let bonusStorm : ℤ := if jge data.snow48h 20 then 10 else 0
  jsClamp (snowPts + tempPts + windPts + bonusFresh + bonusStorm)

/-- The strike predicate `score >= 70` used at `ski-data-fetcher.js`
line 189 and `server.js` line 171. -/
def isStrike (score : ℤ) : Bool := decide (70 ≤ score)

/-- The clamp keeps every score in `[0, 100]`. -/
theorem jsClamp_range (s : ℤ) : 0 ≤ jsClamp s ∧ jsClamp s ≤ 100 := by
  unfold jsClamp
  omega

/-- Claim C1: for every reading, including pathological out-of-band metric
values (negative wind speed, NaN-defaulted metrics — `none` fields), both
`calculateSurfScore` and `calculateSkiScore` return an integer in
`[0, 100]`. -/
theorem score_range_C1 :
    ∀ (d : SurfData) (sd : SkiData),
      (0 ≤ calculateSurfScore d ∧ calculateSurfScore d ≤ 100) ∧
      (0 ≤ calculateSkiScore sd ∧ calculateSkiScore sd ≤ 100) := by
  intro d sd
  exact ⟨jsClamp_range _, jsClamp_range _⟩

/-- Claim C6: the reading with wave height 2.0 m, dominant period 14 s,
average period 10 s and wind speed 2 m/s scores exactly 100, decomposed as
40 (height) + 30 (period) + 20 (wind) + 10 (avg period), and the derived
`isStrike` flag is true. -/
theorem scenario_B1_C6 :
    surfHeightPts (jmul (some 2) 3.28084) = 40 ∧
    surfPeriodPts (some 14) = 30 ∧
    surfWindPts (jmul (some 2) 2.237) = 20 ∧
    surfAvgPts (some 10) = 10 ∧
    calculateSurfScore ⟨some 2, some 14, some 10, some 2⟩ = 100 ∧
    isStrike (calculateSurfScore ⟨some 2, some 14, some 10, some 2⟩) = true := by
  refine ⟨?_, ?_, ?_, ?_, ?_, ?_⟩ <;> with_unfolding_all rfl

/-! ### SQL scoring functions (`database_schema.sql`) -/

/-- Function `calculate_surf_score` from `database_schema.sql` lines 202–250.  SQL
`DECIMAL` arguments are exact, hence `ℚ`; the sequential `score := score + n`
assignments are the let-rebindings; the return is
`GREATEST(0, LEAST(100, score))`. -/
def calculate_surf_score (wave_height dominant_period wind_speed avg_period : ℚ) : ℤ :=
  let height_feet := wave_height * 3.28084
  let wind_mph := wind_speed * 2.237
  let score0 : ℤ := 0
  let score1 :=
    if 4 ≤ height_feet ∧ height_feet ≤ 10 then score0 + 40
    else if 2 ≤ height_feet ∧ height_feet < 4 then score0 + 25
    else if 10 < height_feet ∧ height_feet ≤ 15 then score0 + 30
    else score0
  let score2 :=
    if 12 ≤ dominant_period then score1 + 30
    else if 10 ≤ dominant_period then score1 + 20
    else if 8 ≤ dominant_period then score1 + 10
    else score1
  let score3 :=
    if wind_mph < 10 then score2 + 20
    else if wind_mph < 15 then score2 + 10
    else score2 - 10
  let score4 := if 8 ≤ avg_period then score3 + 10 else score3
  max 0 (min 100 score4)

/-- Function `calculate_ski_score` from `database_schema.sql` lines 253–295. -/
def calculate_ski_score (snow_24h snow_48h base_depth temperature wind_speed : ℚ) : ℤ :=
  let score0 : ℤ := 0
  let score1 :=
    if 12 ≤ snow_24h then score0 + 40
    else if 6 ≤ snow_24h then score0 + 25
    else if 18 ≤ snow_48h then score0 + 30
    else score0
  let score2 :=
    if temperature < 32 ∧ 10 < temperature then score1 + 20
    else if temperature < 10 then score1 + 15
    else score1
  let score3 :=
    if wind_speed < 20 then score2 + 20
    else if wind_speed < 30 then score2 + 10
    else score2
  let score4 :=
    if 60 ≤ base_depth then score3 + 20
    else if 40 ≤ base_depth then score3 + 10
    else score3
  max 0 (min 100 score4)

/-- Propositional form of the wave-height block, on a finite value. -/
def heightPtsQ (x : ℚ) : ℤ :=
  if 4 ≤ x ∧ x ≤ 10 then 40
  else if 2 ≤ x ∧ x < 4 then 25
  else if 10 < x ∧ x ≤ 15 then 30
  else 0

/-- Propositional form of the dominant-period block, on a finite value. -/
def periodPtsQ (p : ℚ) : ℤ :=
  if 12 ≤ p then 30 else if 10 ≤ p then 20 else if 8 ≤ p then 10 else 0

/-- Propositional form of the wind block, on a finite value. -/
def windPtsQ (w : ℚ) : ℤ :=
  if w < 10 then 20 else if w < 15 then 10 else -10

/-- Propositional form of the average-period block, on a finite value. -/
def avgPtsQ (a : ℚ) : ℤ :=
  if 8 ≤ a then 10 else 0

theorem surfHeightPts_some (v : ℚ) : surfHeightPts (some v) = heightPtsQ v := by
  simp only [surfHeightPts, heightPtsQ, jge, jle, jgt, jlt, Bool.and_eq_true,
    decide_eq_true_eq]

theorem surfPeriodPts_some (p : ℚ) : surfPeriodPts (some p) = periodPtsQ p := by
  simp only [surfPeriodPts, periodPtsQ, jge, decide_eq_true_eq]

theorem surfWindPts_some (w : ℚ) : surfWindPts (some w) = windPtsQ w := by
  simp only [surfWindPts, windPtsQ, jlt, decide_eq_true_eq]

theorem surfAvgPts_some (a : ℚ) : surfAvgPts (some a) = avgPtsQ a := by
  simp only [surfAvgPts, avgPtsQ, jge, decide_eq_true_eq]

theorem sql_height_step (s : ℤ) (x : ℚ) :
    (if 4 ≤ x ∧ x ≤ 10 then s + 40
     else if 2 ≤ x ∧ x < 4 then s + 25
     else if 10 < x ∧ x ≤ 15 then s + 30
     else s) = s + heightPtsQ x := by
  unfold heightPtsQ
  split_ifs <;> omega

theorem sql_period_step (s : ℤ) (p : ℚ) :
    (if 12 ≤ p then s + 30
     else if 10 ≤ p then s + 20
     else if 8 ≤ p then s + 10
     else s) = s + periodPtsQ p := by
  unfold periodPtsQ
  split_ifs <;> omega

theorem sql_wind_step (s : ℤ) (w : ℚ) :
    (if w < 10 then s + 20 else if w < 15 then s + 10 else s - 10)
      = s + windPtsQ w := by
  unfold windPtsQ
  split_ifs <;> omega

theorem sql_avg_step (s : ℤ) (a : ℚ) :
    (if 8 ≤ a then s + 10 else s) = s + avgPtsQ a := by
  unfold avgPtsQ
  split_ifs <;> omega

/-- Claim C5 (amended): the JavaScript and SQL surf scorers return equal
scores on every input (the ski scorers do not, see the counterexample). -/
theorem surf_scorers_agree_C5 :
    ∀ h p w a : ℚ,
      calculateSurfScore ⟨some h, some p, some a, some w⟩ =
        calculate_surf_score h p w a := by
  intro h p w a
  have e1 : calculateSurfScore ⟨some h, some p, some a, some w⟩ =
      jsClamp (heightPtsQ (h * 3.28084) + periodPtsQ p + windPtsQ (w * 2.237)
        + avgPtsQ a) := by
    simp only [calculateSurfScore, jmul, Option.map_some']
    rw [surfHeightPts_some, surfPeriodPts_some, surfWindPts_some, surfAvgPts_some]
  have e2 : calculate_surf_score h p w a =
      jsClamp (heightPtsQ (h * 3.28084) + periodPtsQ p + windPtsQ (w * 2.237)
        + avgPtsQ a) := by
    simp only [calculate_surf_score]
    rw [sql_avg_step, sql_wind_step, sql_period_step, sql_height_step]
    unfold jsClamp
    omega
  rw [e1, e2]

/-- Claim C5 counterexample: on the all-zero report the JavaScript ski
scorer returns 30 while the SQL ski scorer returns 35, so the two ski
implementations do not return equal scores on all inputs. -/
theorem ski_scorers_disagree_C5 :
    calculateSkiScore ⟨some 0, some 0, some 0, some 0⟩ = 30 ∧
    calculate_ski_score 0 0 0 0 0 = 35 ∧
    calculateSkiScore ⟨some 0, some 0, some 0, some 0⟩ ≠
      calculate_ski_score 0 0 0 0 0 := by
  have h1 : calculateSkiScore ⟨some 0, some 0, some 0, some 0⟩ = 30 := by
    with_unfolding_all rfl
  have h2 : calculate_ski_score 0 0 0 0 0 = 35 := by
    with_unfolding_all rfl
  refine ⟨h1, h2, ?_⟩
  rw [h1, h2]
  decide

/-! ### Wave-height bands (claim C4) -/

/-- The three wave-height bands of `calculateSurfScore` (`server.js`
lines 69–71) as (membership condition on `heightFeet`, points). -/
def heightBands : List ((JNum → Bool) × ℤ) :=
  [(fun hf => jge hf 4 && jle hf 10, 40),
   (fun hf => jge hf 2 && jlt hf 4, 25),
   (fun hf => jgt hf 10 && jle hf 15, 30)]

/-- The bands whose membership condition a given `heightFeet` value satisfies. -/
def matchingBands (hf : JNum) : List ((JNum → Bool) × ℤ) :=
  heightBands.filter (fun b => b.1 hf)

/-- Claim C4 counterexample: for wave height 0 m no wave-height band
contributes at all, so it is not the case that exactly one band contributes
for every wave height. -/
theorem height_band_none_C4 :
    (matchingBands (jmul (some 0) 3.28084)).length = 0 ∧
    ¬ (matchingBands (jmul (some 0) 3.28084)).length = 1 := by
  have h : (matchingBands (jmul (some 0) 3.28084)).length = 0 := by
    with_unfolding_all rfl
  exact ⟨h, by omega⟩

/-- Claim C4 (amended): for every wave height, at most one wave-height band
contributes points, never two, and the height contribution of the surf
scorer equals the total points of the matching bands (first matching band
only — no double-counting). -/
theorem height_band_exclusive_C4 :
    ∀ x : JNum, (matchingBands x).length ≤ 1 ∧
      surfHeightPts x = ((matchingBands x).map Prod.snd).sum := by
  intro x
  rcases x with _ | v
  · constructor <;> simp [matchingBands, heightBands, surfHeightPts, jge, jle, jlt, jgt]
  · rcases lt_or_le v 2 with h1 | h1
    · have nA : ¬ 4 ≤ v := by linarith
      have nB : ¬ 2 ≤ v := by linarith
      have nC : ¬ 10 < v := by linarith
      simp [matchingBands, heightBands, surfHeightPts, jge, jle, jlt, jgt, nA, nB, nC]
    · rcases lt_or_le v 4 with h2 | h2
      · have nA : ¬ 4 ≤ v := by linarith
        have nC : ¬ 10 < v := by linarith
        simp [matchingBands, heightBands, surfHeightPts, jge, jle, jlt, jgt, h1, h2, nA, nC]
      · rcases le_or_lt v 10 with h3 | h3
        · have nB : ¬ v < 4 := by linarith
          have nC : ¬ 10 < v := by linarith
          simp [matchingBands, heightBands, surfHeightPts, jge, jle, jlt, jgt, h2, h3, nB, nC]
        · rcases le_or_lt v 15 with h4 | h4
          · have nA : ¬ v ≤ 10 := by linarith
            have nB : ¬ v < 4 := by linarith
            simp [matchingBands, heightBands, surfHeightPts, jge, jle, jlt, jgt, h3, h4, nA, nB]
          · have nA : ¬ v ≤ 10 := by linarith
            have nB : ¬ v < 4 := by linarith
            have nC : ¬ v ≤ 15 := by linarith
            simp [matchingBands, heightBands, surfHeightPts, jge, jle, jlt, jgt, nA, nB, nC]

/-! ### Fixed-width buoy payload parsing (`server.js` lines 38–62)

Payload text is modelled as `List Char`.  The model covers the finite
fragment of JS numbers: `parseFloat` results `NaN` (no digit consumed) are
`none`; the non-finite parse result for a literal `"Infinity"` token is
outside the model (the NOAA feed never produces one). -/

/-- JS `text.split(sep)` for a single-character separator. -/
def splitChar (sep : Char) : List Char → List (List Char)
  | [] => [[]]
  | c :: rest =>
    let r := splitChar sep rest
    if c = sep then [] :: r
    else
      match r with
      | [] => [[c]]
      | t :: ts => (c :: t) :: ts

/-- JS `String.prototype.trim`. -/
def jsTrim (cs : List Char) : List Char :=
  ((cs.dropWhile Char.isWhitespace).reverse.dropWhile Char.isWhitespace).reverse

/-- Accumulates maximal non-whitespace runs; `cur` is the current token,
reversed. -/
def wsTokensAux (cur : List Char) : List Char → List (List Char)
  | [] => if cur = [] then [] else [cur.reverse]
  | c :: rest =>
    if Char.isWhitespace c then
      if cur = [] then wsTokensAux [] rest
      else cur.reverse :: wsTokensAux [] rest
    else wsTokensAux (c :: cur) rest

/-- The maximal non-whitespace runs of a character list. -/
def wsTokens (cs : List Char) : List (List Char) := wsTokensAux [] cs

/-- JS `str.split(/\s+/)`: the non-whitespace runs, with an extra empty
field when the string starts (resp. ends) with whitespace, and `[""]` for
the empty string. -/
def jsSplitWs (cs : List Char) : List (List Char) :=
  match cs with
  | [] => [[]]
  | c :: _ =>
    let lead : List (List Char) := if Char.isWhitespace c then [[]] else []
    let trail : List (List Char) :=
      if Char.isWhitespace ((cs.getLast?).getD c) then [[]] else []
    lead ++ wsTokens cs ++ trail

/-- Digit run to natural number. -/
def digitsToNat (ds : List Char) : Nat :=
  ds.foldl (fun a c => a * 10 + (c.toNat - 48)) 0

/-- JS `parseFloat` on the finite fragment: skip leading whitespace, an
optional sign, integer digits, an optional fraction, an optional exponent;
`none` when no digit is consumed (JS `NaN`).  Trailing garbage is ignored,
as in JS. -/
def jsParseFloat (s : List Char) : Option ℚ :=
  let cs0 := s.dropWhile Char.isWhitespace
  let sign : ℚ :=
    match cs0 with
    | '-' :: _ => -1
    | _ => 1
  let cs1 :=
    match cs0 with
    | '-' :: rest => rest
    | '+' :: rest => rest
    | _ => cs0
  let ip := cs1.takeWhile Char.isDigit
  let cs2 := cs1.dropWhile Char.isDigit
  let fp :=
    match cs2 with
    | '.' :: rest => rest.takeWhile Char.isDigit
    | _ => []
  let cs3 :=
    match cs2 with
    | '.' :: rest => rest.dropWhile Char.isDigit
    | _ => cs2
  if ip = [] ∧ fp = [] then none
  else
    let mant : ℚ := (digitsToNat ip : ℚ) + (digitsToNat fp : ℚ) / ((10 : ℚ) ^ fp.length)
    let e : ℤ :=
      match cs3 with
      | c :: rest =>
        if c = 'e' ∨ c = 'E' then
          let esign : ℤ :=
            match rest with
            | '-' :: _ => -1
            | _ => 1
          let rest2 :=
            match rest with
            | '-' :: r => r
            | '+' :: r => r
            | _ => rest
          let eds := rest2.takeWhile Char.isDigit
          if eds = [] then 0 else esign * (digitsToNat eds : ℤ)
        else 0
      | [] => 0
    some (sign * mant * (10 : ℚ) ^ e)

/-- The object built by `headers.forEach((header, i) => data[header] =
latest[i])`: the last binding for a duplicated header wins, and a header
index beyond the data row (or an absent header) is `undefined` (`none`). -/
def objGet (headers latest : List (List Char)) (key : List Char) : Option (List Char) :=
  let idxs := (List.range headers.length).filter (fun i => decide (headers.getD i [] = key))
  match idxs.getLast? with
  | none => none
  | some i => latest.getD i [] |> some |>.filter (fun _ => decide (i < latest.length))

/-- JS `parseFloat(data[key]) || 0`: an `undefined` field or an
unparseable token (`NaN`) defaults to 0. -/
def numField (headers latest : List (List Char)) (key : List Char) : ℚ :=
  ((objGet headers latest key).bind jsParseFloat).getD 0

/-- The numeric fields of `parseBuoyData`'s result (`server.js` lines
50–61).  The `Date`-valued `timestamp` field is outside the numeric model
and omitted; no claim mentions it. -/
structure BuoyReading where
  buoyId : String
  waveHeight : ℚ
  dominantPeriod : ℚ
  avgPeriod : ℚ
  waveDirection : ℚ
  windSpeed : ℚ
  windDirection : ℚ
  pressure : ℚ
  waterTemp : ℚ
deriving DecidableEq

/-- Function `parseBuoyData` from `server.js` lines 38–62: split into lines, drop
blank lines, return `null` when fewer than 3 remain, else read the header
row (line 0) and the first data row (line 2) and default every
unparseable numeric field to 0. -/
def parseBuoyData (text : List Char) (buoyId : String) : Option BuoyReading :=
  let lines := (splitChar '\n' text).filter (fun l => decide (jsTrim l ≠ []))
  if lines.length < 3 then none
  else
    let headers := jsSplitWs (lines.getD 0 [])
    let latest := jsSplitWs (lines.getD 2 [])
    some {
      buoyId := buoyId
      waveHeight := numField headers latest ['W', 'V', 'H', 'T']
      dominantPeriod := numField headers latest ['D', 'P', 'D']
      avgPeriod := numField headers latest ['A', 'P', 'D']
      waveDirection := numField headers latest ['M', 'W', 'D']
      windSpeed := numField headers latest ['W', 'S', 'P', 'D']
      windDirection := numField headers latest ['W', 'D', 'I', 'R']
      pressure := numField headers latest ['P', 'R', 'E', 'S']
      waterTemp := numField headers latest ['W', 'T', 'M', 'P'] }

/-! ### The refresh cycle (`server.js` lines 88–113) -/

/-- A cache entry as stored by `fetchAllBuoys`: the parsed reading plus its
score (the static `BUOYS` metadata spread into the entry carries no logic
and is omitted). -/
structure CacheEntry where
  reading : BuoyReading
  score : ℤ
deriving DecidableEq

/-- Scoring a parsed reading, as in `score: calculateSurfScore(parsed)`
(`server.js` line 102): the parsed fields are finite numbers. -/
def scoreReading (r : BuoyReading) : CacheEntry :=
  ⟨r, calculateSurfScore ⟨some r.waveHeight, some r.dominantPeriod,
    some r.avgPeriod, some r.windSpeed⟩⟩

/-- The per-location outcome of one cycle: `none` when the network fetch
threw (the `catch` path) or `parseBuoyData` returned `null`. -/
def cycleResult (fetch : String → Option (List Char)) (buoyId : String) :
    Option BuoyReading :=
  (fetch buoyId).bind (fun text => parseBuoyData text buoyId)

/-- Function `fetchAllBuoys` from `server.js` lines 88–113: builds `results` from
the locations that fetched and parsed successfully, then assigns
`buoyCache = results` (line 110), discarding the previous cache whole —
`oldCache` is deliberately unused. -/
def fetchAllBuoys (buoyIds : List String) (fetch : String → Option (List Char))
    (oldCache : List (String × CacheEntry)) : List (String × CacheEntry) :=
  buoyIds.filterMap (fun id => (cycleResult fetch id).map (fun r => (id, scoreReading r)))

/-- A syntactically well-formed NOAA payload (header row, units row, data
row) in which every metric value is the NOAA missing-data marker `MM`, so
no numeric field parses. -/
def mmPayload : List Char :=
  ("#YY  MM DD hh mm WDIR WSPD GST  WVHT   DPD   APD MWD   PRES  ATMP  WTMP\n"
    ++ "#yr  mo dy hr mn degT m/s  m/s     m   sec   sec degT   hPa  degC  degC\n"
    ++ "MM   MM MM MM MM  MM   MM  MM    MM    MM    MM  MM     MM    MM    MM").toList

/-- The reading `parseBuoyData` produces from `mmPayload`: every numeric
field defaulted to 0. -/
def mmReading : BuoyReading := ⟨"46221", 0, 0, 0, 0, 0, 0, 0, 0⟩

/-- Claim C3 counterexample: on a payload whose metrics are all
unparseable (`MM` markers), `parseBuoyData` does not fail — it returns the
all-zero reading — and `fetchAllBuoys` stores that reading in the cache,
so a reading with no parseable metrics is cached. -/
theorem parse_malformed_cached_C3 :
    parseBuoyData mmPayload "46221" = some mmReading ∧
    List.lookup "46221" (fetchAllBuoys ["46221"] (fun _ => some mmPayload) []) =
      some (scoreReading mmReading) := by
  refine ⟨?_, ?_⟩ <;> with_unfolding_all rfl

/-- Claim C3 (amended): individual numeric fields that fail to parse
default to 0 rather than failing the whole reading; the parser returns
`null` exactly when the payload has fewer than three non-blank lines — it
never rejects a reading for having unparseable metrics, and a reading with
no parseable metrics is still stored in the cache. -/
theorem parse_defaults_C3 :
    (∀ (text : List Char) (id : String),
      parseBuoyData text id = none ↔
        ((splitChar '\n' text).filter (fun l => decide (jsTrim l ≠ []))).length < 3) ∧
    (∀ (headers latest : List (List Char)) (key : List Char),
      (objGet headers latest key).bind jsParseFloat = none →
        numField headers latest key = 0) ∧
    List.lookup "46221" (fetchAllBuoys ["46221"] (fun _ => some mmPayload) []) =
      some (scoreReading mmReading) := by
  refine ⟨?_, ?_, ?_⟩
  · intro text id
    simp only [parseBuoyData]
    split
    · simp_all
    · simp_all
  · intro headers latest key hk
    simp only [numField, hk, Option.getD_none]
  · with_unfolding_all rfl

/-- Witness for the hypothesis of `parse_defaults_C3`: a header with no
matching data token defaults to 0. -/
theorem parse_defaults_C3_witness :
    (objGet [['W', 'V', 'H', 'T']] [] ['W', 'V', 'H', 'T']).bind jsParseFloat = none ∧
    numField [['W', 'V', 'H', 'T']] [] ['W', 'V', 'H', 'T'] = 0 :=
  ⟨rfl, parse_defaults_C3.2.1 [['W', 'V', 'H', 'T']] [] ['W', 'V', 'H', 'T'] rfl⟩

/-- An arbitrary pre-existing cache entry for buoy 46221. -/
def zeroReading : BuoyReading := ⟨"46221", 0, 0, 0, 0, 0, 0, 0, 0⟩

/-- Claim C2 counterexample: a cache holding an entry for location 46221
does not keep it across a cycle in which 46221's fetch fails — the cycle
replaces the cache wholesale, so the stale entry is evicted rather than
left untouched. -/
theorem cache_eviction_C2 :
    List.lookup "46221" [("46221", scoreReading zeroReading)] =
      some (scoreReading zeroReading) ∧
    fetchAllBuoys ["46221"] (fun _ => none) [("46221", scoreReading zeroReading)] = [] ∧
    List.lookup "46221"
      (fetchAllBuoys ["46221"] (fun _ => none) [("46221", scoreReading zeroReading)]) =
      none := by
  refine ⟨?_, ?_, ?_⟩ <;> with_unfolding_all rfl

/-- Claim C2 (amended): a refresh cycle replaces the cache with exactly the
cycle's own successful results — the outcome is independent of the prior
cache, and a location whose fetch or parse fails this cycle has no entry
afterwards (stale entries are evicted, not retained). -/
theorem cache_replaced_C2 :
    ∀ (ids : List String) (fetch : String → Option (List Char))
      (old old2 : List (String × CacheEntry)),
      fetchAllBuoys ids fetch old = fetchAllBuoys ids fetch old2 ∧
      (∀ id, cycleResult fetch id = none →
        List.lookup id (fetchAllBuoys ids fetch old) = none) := by
  intro ids fetch old old2
  constructor
  · rfl
  · intro id h
    induction ids with
    | nil => rfl
    | cons a rest ih =>
      simp only [fetchAllBuoys, List.filterMap_cons] at ih ⊢
      cases hc : cycleResult fetch a with
      | none => simpa [hc] using ih
      | some r =>
        have hba : (id == a) = false := by
          refine beq_eq_false_iff_ne.mpr ?_
          intro hid
          subst hid
          rw [hc] at h
          cases h
        simp only [hc, Option.map_some', List.lookup, hba]
        simpa [hc] using ih

/-- Witness for the hypothesis of `cache_replaced_C2`: instantiated at a
failing fetch for location 46221. -/
theorem cache_replaced_C2_witness :
    cycleResult (fun _ => none) "46221" = none ∧
    List.lookup "46221" (fetchAllBuoys ["46221"] (fun _ => none) []) = none :=
  ⟨rfl, (cache_replaced_C2 ["46221"] (fun _ => none) [] []).2 "46221" rfl⟩

/-! ### Ski data fetching (`ski-data-fetcher.js`) -/

/-- The scoring-relevant projections of a weather result as consumed by
`fetchAllSkiData` (`ski-data-fetcher.js` lines 178–183): `data.snow24h`,
`data.snow48h`, `data.current?.temp`, `data.current?.windSpeed`,
`data.forecast?.[0]?.main?.temp`, `data.forecast?.[0]?.wind?.speed` and
`data.source`.  `none` is an absent (`undefined`) path.  List-valued
fields never read by the scoring path are omitted. -/
structure SkiWeatherData where
  snow24h : Option ℚ
  snow48h : Option ℚ
  currentTemp : Option ℚ
  currentWind : Option ℚ
  fcMainTemp : Option ℚ
  fcWindSpeed : Option ℚ
  source : String
deriving DecidableEq

/-- Projections of every successful `fetchNOAAWeather` result
(`ski-data-fetcher.js` lines 51–58): the returned object has no `snow24h`,
`snow48h` or `current` keys, and its `forecast` entries are weather.gov
period objects with no `main` or `wind` keys, so every scoring-relevant
projection is `undefined`. -/
def noaaWeatherData : SkiWeatherData := ⟨none, none, none, none, none, none, "noaa"⟩

/-- JS truthiness filter on a number: `0`, `NaN` and `undefined` are falsy. -/
def jsTruthy (x : Option ℚ) : Option ℚ :=
  x.bind (fun v => if v = 0 then none else some v)

/-- JS `x || 0`. -/
def jsNumOrZero (x : Option ℚ) : ℚ := (jsTruthy x).getD 0

/-- JS `x || y || 0`. -/
def jsNumOrOrZero (x y : Option ℚ) : ℚ :=
  ((jsTruthy x).orElse (fun _ => jsTruthy y)).getD 0

/-- The argument object `fetchAllSkiData` builds for `calculateSkiScore`
(`ski-data-fetcher.js` lines 178–183). -/
def skiScoreInput (d : SkiWeatherData) : SkiData :=
  ⟨some (jsNumOrZero d.snow24h), some (jsNumOrZero d.snow48h),
   some (jsNumOrOrZero d.currentTemp d.fcMainTemp),
   some (jsNumOrOrZero d.currentWind d.fcWindSpeed)⟩

/-- The per-resort source-selection step of `fetchAllSkiData`
(`ski-data-fetcher.js` lines 162–175): NOAA first for US resorts with
OpenWeather as fallback when it returns `null`; OpenWeather alone
otherwise. -/
def resolveSkiSource (country : String) (noaa openweather : Option SkiWeatherData) :
    Option SkiWeatherData :=
  if country = "US" then
    match noaa with
    | some d => some d
    | none => openweather
  else openweather

/-- Claim C7: the fallback resolver tries adapters in preference order and
stops at the first success — when NOAA (adapter A) fails and OpenWeather
(adapter B) succeeds the result is B's reading (A's failure is not
surfaced: the result is a plain success), and when A succeeds B is never
consulted. -/
theorem fallback_order_C7 :
    (∀ b : SkiWeatherData, resolveSkiSource "US" none (some b) = some b) ∧
    (∀ (a : SkiWeatherData) (ow : Option SkiWeatherData),
      resolveSkiSource "US" (some a) ow = some a) := by
  constructor <;> intros <;> rfl

/-- Claim C10: every NOAA-sourced ski result is scored with zero snow
contribution — with `snow24h` and `snow48h` defaulted to 0 the score is at
most 40 for any temperature and wind, the concrete NOAA-shaped input
yields an all-zero score input, its score is at most 40, and `isStrike` is
false. -/
theorem noaa_capped_score_C10 :
    (∀ temp wind : JNum, calculateSkiScore ⟨some 0, some 0, temp, wind⟩ ≤ 40) ∧
    (∀ temp wind : JNum,
      isStrike (calculateSkiScore ⟨some 0, some 0, temp, wind⟩) = false) ∧
    skiScoreInput noaaWeatherData = ⟨some 0, some 0, some 0, some 0⟩ ∧
    calculateSkiScore (skiScoreInput noaaWeatherData) ≤ 40 ∧
    isStrike (calculateSkiScore (skiScoreInput noaaWeatherData)) = false := by
  have hall : ∀ temp wind : JNum, calculateSkiScore ⟨some 0, some 0, temp, wind⟩ ≤ 40 := by
    intro temp wind
    rcases temp with _ | t <;> rcases wind with _ | w <;>
      simp only [calculateSkiScore, jge, jlt, jgt, jmul, jmuladd,
        Option.map_some', jsClamp] <;>
      (try norm_num) <;> (try split_ifs) <;> omega
  have hstrike : ∀ temp wind : JNum,
      isStrike (calculateSkiScore ⟨some 0, some 0, temp, wind⟩) = false := by
    intro temp wind
    have hb := hall temp wind
    unfold isStrike
    rw [decide_eq_false_iff_not]
    omega
  have hin : skiScoreInput noaaWeatherData = ⟨some 0, some 0, some 0, some 0⟩ := rfl
  refine ⟨hall, hstrike, hin, ?_, ?_⟩
  · rw [hin]
    exact hall (some 0) (some 0)
  · rw [hin]
    have h30 : calculateSkiScore ⟨some 0, some 0, some 0, some 0⟩ = 30 := by
      with_unfolding_all rfl
    rw [h30]
    rfl

/-! ### Strike queries (`server.js` lines 166–195, `ski-data-fetcher.js`
lines 205–217) -/

/-- The cached buoy fields read by the `/api/strikes` handler. -/
structure CachedBuoy where
  buoyId : String
  name : String
  lat : ℚ
  lon : ℚ
  waveHeight : ℚ
  dominantPeriod : ℚ
  windSpeed : ℚ
  score : ℤ
deriving DecidableEq

/-- The surf strike object pushed by `/api/strikes` (`server.js` lines
172–184); the constant `type: 'surf'` tag and the timestamp are carried
data with no logic and are omitted. -/
structure SurfStrike where
  id : String
  name : String
  lat : ℚ
  lon : ℚ
  score : ℤ
  waveHeight : ℚ
  period : ℚ
  wind : ℚ
deriving DecidableEq

/-- The strike object built from a cached buoy. -/
def mkSurfStrike (b : CachedBuoy) : SurfStrike :=
  ⟨b.buoyId, b.name, b.lat, b.lon, b.score, b.waveHeight, b.dominantPeriod, b.windSpeed⟩

/-- Route handler `/api/strikes` (`server.js` lines 166–195): push each cached buoy with
`buoy.score >= 70`, then `strikes.sort((a, b) => b.score - a.score)` —
a stable sort by score descending, modelled by `mergeSort` with
`b.score ≤ a.score`. -/
def apiStrikes (cache : List CachedBuoy) : List SurfStrike :=
  ((cache.filter (fun b => isStrike b.score)).map mkSurfStrike).mergeSort
    (fun a b => decide (b.score ≤ a.score))

/-- One element of `fetchAllSkiData`'s result list (`ski-data-fetcher.js`
lines 185–190): resort metadata, the fetched weather, the score and the
stored `isStrike` flag. -/
structure ResortResult where
  resortName : String
  lat : ℚ
  lon : ℚ
  weather : SkiWeatherData
  score : ℤ
  strikeFlag : Bool
deriving DecidableEq

/-- The summary object `findStrikes` maps each strike to
(`ski-data-fetcher.js` lines 209–216); the `toFixed(1)`/`'N/A'` string
formatting of the snow and temperature fields is presentation-only and the
raw values are kept. -/
structure SkiStrike where
  name : String
  lat : ℚ
  lon : ℚ
  score : ℤ
  snow24h : Option ℚ
  snow48h : Option ℚ
  temp : Option ℚ
deriving DecidableEq

/-- The ski summary object built from a resort result. -/
def mkSkiStrike (r : ResortResult) : SkiStrike :=
  ⟨r.resortName, r.lat, r.lon, r.score, r.weather.snow24h, r.weather.snow48h,
    r.weather.currentTemp⟩

/-- Function `findStrikes` from `ski-data-fetcher.js` lines 205–217: filter on the
stored `isStrike` flag, sort by score descending, then map to the summary
shape. -/
def findStrikes (resortData : List ResortResult) : List SkiStrike :=
  ((resortData.filter (fun r => r.strikeFlag)).mergeSort
    (fun a b => decide (b.score ≤ a.score))).map mkSkiStrike

theorem descending_trans {α : Type} (f : α → ℤ) :
    ∀ a b c : α, (fun x y => decide (f y ≤ f x)) a b →
      (fun x y => decide (f y ≤ f x)) b c → (fun x y => decide (f y ≤ f x)) a c := by
  intro a b c hab hbc
  simp only [decide_eq_true_eq] at hab hbc ⊢
  omega

theorem descending_total {α : Type} (f : α → ℤ) :
    ∀ a b : α, ((fun x y => decide (f y ≤ f x)) a b
      || (fun x y => decide (f y ≤ f x)) b a) := by
  intro a b
  simp only [Bool.or_eq_true, decide_eq_true_eq]
  omega

/-- Claim C8: the strikes queries return exactly the locations whose score
meets or exceeds 70 (for `findStrikes`, via the `isStrike` flag that
`fetchAllSkiData` sets to `score >= 70`), and the returned sequence is
sorted by score in descending order. -/
theorem strikes_query_C8 :
    ∀ (cache : List CachedBuoy) (resorts : List ResortResult),
      (apiStrikes cache).Perm
        ((cache.filter (fun b => isStrike b.score)).map mkSurfStrike) ∧
      (apiStrikes cache).Pairwise (fun a b => b.score ≤ a.score) ∧
      ((∀ r ∈ resorts, r.strikeFlag = isStrike r.score) →
        (findStrikes resorts).Perm
          ((resorts.filter (fun r => isStrike r.score)).map mkSkiStrike) ∧
        (findStrikes resorts).Pairwise (fun a b => b.score ≤ a.score)) := by
  intro cache resorts
  refine ⟨?_, ?_, ?_⟩
  · exact List.mergeSort_perm _ _
  · have h := List.sorted_mergeSort (descending_trans (fun s : SurfStrike => s.score))
      (descending_total (fun s : SurfStrike => s.score))
      ((cache.filter (fun b => isStrike b.score)).map mkSurfStrike)
    exact h.imp (fun hab => by simpa using hab)
  · intro hflag
    have hfeq : resorts.filter (fun r => r.strikeFlag) =
        resorts.filter (fun r => isStrike r.score) :=
      List.filter_congr (fun r hr => by rw [hflag r hr])
    constructor
    · unfold findStrikes
      rw [hfeq]
      exact (List.mergeSort_perm _ _).map mkSkiStrike
    · unfold findStrikes
      have h := List.sorted_mergeSort (descending_trans (fun r : ResortResult => r.score))
        (descending_total (fun r : ResortResult => r.score))
        (resorts.filter (fun r => r.strikeFlag))
      have h2 := h.imp (fun hab => by simpa using hab :
        ∀ {a b : ResortResult}, _ → b.score ≤ a.score)
      exact h2.map mkSkiStrike (fun a b hab => hab)

/-- The concrete resort result used to instantiate `strikes_query_C8`. -/
def altaResult : ResortResult := ⟨"Alta", 40.588, -111.638, noaaWeatherData, 80, true⟩

/-- Witness for the hypothesis of `strikes_query_C8`: a singleton resort
list whose stored flag agrees with `score >= 70`. -/
theorem strikes_query_C8_witness :
    (∀ r ∈ [altaResult], r.strikeFlag = isStrike r.score) ∧
    ((findStrikes [altaResult]).Perm
      ((List.filter (fun r => isStrike r.score) [altaResult]).map mkSkiStrike) ∧
     (findStrikes [altaResult]).Pairwise (fun a b => b.score ≤ a.score)) := by
  have hflag : ∀ r ∈ [altaResult], r.strikeFlag = isStrike r.score := by
    intro r hr
    rw [List.mem_singleton] at hr
    subst hr
    rfl
  exact ⟨hflag, (strikes_query_C8 [] [altaResult]).2.2 hflag⟩

/-! ### Strike Detector (claim C9)

Modelled from the spec: the Strike Detector state machine of §4.6 is not
implemented in the source — the JavaScript computes instantaneous scores
only, and `database_schema.sql` lines 75–93 only declare the `strikes`
event table (with its partial index on `ended_at IS NULL`).  The model
below follows the spec's transition function over the event table. -/

/-- A row of the `strikes` table: `location_id`, `started_at`, `ended_at`
(null while the event is open), `peak_score`, `peak_time`. -/
structure StrikeEvent where
  locationId : String
  startedAt : Nat
  endedAt : Option Nat
  peakScore : ℤ
  peakAt : Nat
deriving DecidableEq

/-- An event row that is open (`ended_at IS NULL`) for the location. -/
def isOpenFor (loc : String) (e : StrikeEvent) : Bool :=
  decide (e.locationId = loc) && decide (e.endedAt = none)

/-- Close an open event: set `ended_at = now`. -/
def closeEvent (now : Nat) (e : StrikeEvent) : StrikeEvent :=
  { e with endedAt := some now }

/-- Update the recorded peak when the new score exceeds it. -/
def updatePeak (score : ℤ) (now : Nat) (e : StrikeEvent) : StrikeEvent :=
  if e.peakScore < score then { e with peakScore := score, peakAt := now } else e

/-- Apply `f` to the first open event for `loc` in the event table. -/
def updateFirstOpen (events : List StrikeEvent) (loc : String)
    (f : StrikeEvent → StrikeEvent) : List StrikeEvent :=
  match events with
  | [] => []
  | e :: rest =>
    if isOpenFor loc e then f e :: rest
    else e :: updateFirstOpen rest loc f

/-- Modelled from the spec: one Strike Detector transition (§4.6), invoked
once per successful score per cycle, threshold 70: create a new open event
on an upward crossing, update the peak while at or above threshold, close
the open event on a downward crossing. -/
def stepDetector (events : List StrikeEvent) (loc : String) (score : ℤ)
    (now : Nat) : List StrikeEvent :=
  if events.any (isOpenFor loc) then
    if 70 ≤ score then updateFirstOpen events loc (updatePeak score now)
    else updateFirstOpen events loc (closeEvent now)
  else
    if 70 ≤ score then events ++ [⟨loc, now, none, score, now⟩]
    else events

/-- A detector run over a trace of (location, score, time) samples,
starting from the empty event table. -/
def runDetector (trace : List (String × ℤ × Nat)) : List StrikeEvent :=
  trace.foldl (fun evs t => stepDetector evs t.1 t.2.1 t.2.2) []

/-- The core invariant: at most one open event per location. -/
def atMostOneOpen (events : List StrikeEvent) : Prop :=
  ∀ loc, (events.filter (isOpenFor loc)).length ≤ 1

theorem updatePeak_isOpenFor (loc : String) (score : ℤ) (now : Nat)
    (e : StrikeEvent) : isOpenFor loc (updatePeak score now e) = isOpenFor loc e := by
  unfold updatePeak isOpenFor
  split <;> rfl

theorem closeEvent_isOpenFor (loc : String) (now : Nat) (e : StrikeEvent) :
    isOpenFor loc (closeEvent now e) = false := by
  simp [closeEvent, isOpenFor]

theorem updateFirstOpen_filter_le (loc loc' : String) (f : StrikeEvent → StrikeEvent)
    (hf : ∀ e, isOpenFor loc' (f e) = true → isOpenFor loc' e = true) :
    ∀ events : List StrikeEvent,
      ((updateFirstOpen events loc f).filter (isOpenFor loc')).length ≤
        (events.filter (isOpenFor loc')).length := by
  intro events
  induction events with
  | nil => simp [updateFirstOpen]
  | cons e rest ih =>
    rw [updateFirstOpen]
    by_cases he : isOpenFor loc e = true
    · rw [if_pos he, List.filter_cons, List.filter_cons]
      by_cases hfe : isOpenFor loc' (f e) = true
      · rw [if_pos hfe, if_pos (hf e hfe)]
        simp
      · rw [if_neg hfe]
        by_cases hoe : isOpenFor loc' e = true
        · rw [if_pos hoe]
          simp
        · rw [if_neg hoe]
    · rw [if_neg he, List.filter_cons, List.filter_cons]
      by_cases hoe : isOpenFor loc' e = true
      · rw [if_pos hoe, if_pos hoe]
        simpa using ih
      · rw [if_neg hoe, if_neg hoe]
        exact ih

theorem stepDetector_preserves (events : List StrikeEvent) (loc : String)
    (score : ℤ) (now : Nat) (h : atMostOneOpen events) :
    atMostOneOpen (stepDetector events loc score now) := by
  intro loc'
  unfold stepDetector
  by_cases hany : events.any (isOpenFor loc) = true
  · rw [if_pos hany]
    by_cases hs : 70 ≤ score
    · rw [if_pos hs]
      exact le_trans
        (updateFirstOpen_filter_le loc loc' (updatePeak score now)
          (fun e hb => by rwa [updatePeak_isOpenFor] at hb) events)
        (h loc')
    · rw [if_neg hs]
      exact le_trans
        (updateFirstOpen_filter_le loc loc' (closeEvent now)
          (fun e hb => by rw [closeEvent_isOpenFor] at hb; cases hb) events)
        (h loc')
  · rw [if_neg hany]
    by_cases hs : 70 ≤ score
    · rw [if_pos hs, List.filter_append]
      by_cases hl : loc' = loc
      · subst hl
        have hnil : events.filter (isOpenFor loc') = [] := by
          rw [List.filter_eq_nil_iff]
          intro e he
          intro hopen
          exact hany (List.any_eq_true.mpr ⟨e, he, hopen⟩)
        rw [hnil]
        simp [isOpenFor]
      · have hnew : isOpenFor loc' ⟨loc, now, none, score, now⟩ = false := by
          simp [isOpenFor]
          intro hc
          exact absurd hc.symm hl
        simp only [List.filter_cons, hnew, List.filter_nil]
        simpa using h loc'
    · rw [if_neg hs]
      exact h loc'

/-- Claim C9 — spec-modelled: for every trace of per-location scores, the
Strike Detector never holds two open (`endedAt = none`) events for the
same location: after any run from the empty table, at most one open event
exists per location. -/
theorem one_open_event_C9 :
    ∀ trace : List (String × ℤ × Nat), atMostOneOpen (runDetector trace) := by
  have main : ∀ (trace : List (String × ℤ × Nat)) (events : List StrikeEvent),
      atMostOneOpen events →
      atMostOneOpen (trace.foldl (fun evs t => stepDetector evs t.1 t.2.1 t.2.2) events) := by
    intro trace
    induction trace with
    | nil => intro events h; exact h
    | cons t rest ih =>
      intro events h
      rw [List.foldl_cons]
      exact ih _ (stepDetector_preserves events t.1 t.2.1 t.2.2 h)
  intro trace
  exact main trace [] (fun loc => by simp)

end SwellStrike
